import Mathlib

/-!
Shallow embedding of the resilient database-connection layer of the
Practical-portal backend: the circuit breaker, retrying connection
acquisition, multi-strategy pool initialization, query execution with a
timeout race and graceful degradation, transactions, and the health check.

The definitions mirror `enhanced-db-connection.js` (the main connection
utility) and `robustPool.js` (the robust pool wrapper that `executeQuery`
delegates to when available).  Driver-level outcomes (whether each
`pool.getConnection()` attempt succeeds, whether a query resolves, rejects
or loses its timeout race, whether a strategy's liveness check passes) are
inputs to the model; everything the JavaScript code itself decides —
classification of error codes, retry counts, state transitions, release
and rollback behaviour — is computed by the definitions below.
-/

namespace RobustDB

/-- MySQL driver / network error codes distinguished by the source
(`error.code` values it switches on), plus `SOCKET_CHECK_FAILED` used by
`robustPool.js` when a raw socket probe fails without a code. -/
inductive ErrCode where
  | ER_ACCESS_DENIED_ERROR
  | ER_BAD_DB_ERROR
  | ER_NO_SUCH_TABLE
  | ECONNREFUSED
  | ENOTFOUND
  | ETIMEDOUT
  | ECONNRESET
  | PROTOCOL_CONNECTION_LOST
  | ER_LOCK_WAIT_TIMEOUT
  | ER_LOCK_DEADLOCK
  | SOCKET_CHECK_FAILED
  | EUNKNOWN
deriving DecidableEq, Repr

/-- A JavaScript `Error` as the source inspects it: an optional `code`
property, and the two message shapes the code branches on
(`error.message === 'Query timeout'` in `executeQuery`, and the
distinguishable circuit-open message thrown by `getConnection`). -/
structure JSError where
  code : Option ErrCode := none
  queryTimeout_message : Bool := false
  circuitOpen_message : Bool := false
deriving DecidableEq, Repr

/-- The error `getConnection` throws while the breaker is open:
`new Error('Circuit breaker is open - database connections temporarily disabled')`. -/
def circuitOpenError : JSError := { circuitOpen_message := true }

/-- The error `getConnection` throws when the socket pre-check fails:
`new Error('Socket connectivity failed: ...')` (carries no `code`). -/
def socketFailedError : JSError := {}

/-- Error `new Error('Unable to establish database connection with any strategy')`
thrown by `initializePool` when every strategy fails. -/
def allStrategiesFailedError : JSError := {}

/-- Module-level circuit-breaker state of `enhanced-db-connection.js`
(`circuitBreakerOpen`, `lastFailureTime`). -/
structure CircuitState where
  circuitBreakerOpen : Bool
  lastFailureTime : Nat
deriving DecidableEq, Repr

/-- Constant `circuitBreakerTimeout = 30000` (30 seconds). -/
def circuitBreakerTimeout : Nat := 30000

/-- Module-level `connectionStats` counters. -/
structure ConnectionStats where
  totalConnections : Nat := 0
  successfulConnections : Nat := 0
  failedConnections : Nat := 0
  timeouts : Nat := 0
  resets : Nat := 0
deriving DecidableEq, Repr

/-- The `fatalErrors` array inside `openCircuitBreaker`. -/
def fatalErrors : List ErrCode :=
  [.ER_ACCESS_DENIED_ERROR, .ER_BAD_DB_ERROR, .ER_NO_SUCH_TABLE, .ECONNREFUSED, .ENOTFOUND]

/-- The transient-code test the source repeats
(`error.code === 'ETIMEDOUT' || error.code === 'ECONNRESET' || error.code === 'PROTOCOL_CONNECTION_LOST'`). -/
def isTransientCode : Option ErrCode → Bool
  | some .ETIMEDOUT => true
  | some .ECONNRESET => true
  | some .PROTOCOL_CONNECTION_LOST => true
  | _ => false

/-- Model of `isCircuitBreakerOpen()`: returns whether the breaker is currently
open and the (possibly auto-closed) state; `now` stands for `Date.now()`. -/
def isCircuitBreakerOpen (now : Nat) (s : CircuitState) : Bool × CircuitState :=
  if !s.circuitBreakerOpen then (false, s)
  else if now - s.lastFailureTime > circuitBreakerTimeout then
    (false, { s with circuitBreakerOpen := false })
  else (true, s)

/-- Model of `openCircuitBreaker(error)`: opens the breaker only when `error.code`
is one of `fatalErrors`; otherwise the state is unchanged. -/
def openCircuitBreaker (err : JSError) (now : Nat) (s : CircuitState) : CircuitState :=
  match err.code with
  | some c =>
      if c ∈ fatalErrors then { circuitBreakerOpen := true, lastFailureTime := now } else s
  | none => s

/-- Model of `resetCircuitBreaker()`. -/
def resetCircuitBreaker : CircuitState :=
  { circuitBreakerOpen := false, lastFailureTime := 0 }

/-- The pool `'error'` event handler installed by `initializePool`:
increments `failedConnections`, counts transient codes as timeouts, and
calls `openCircuitBreaker` only when `failedConnections > 3`. -/
def poolErrorHandler (err : JSError) (now : Nat) (stats : ConnectionStats)
    (cb : CircuitState) : ConnectionStats × CircuitState :=
  let stats := { stats with failedConnections := stats.failedConnections + 1 }
  if isTransientCode err.code then
    ({ stats with timeouts := stats.timeouts + 1 }, cb)
  else if stats.failedConnections > 3 then
    (stats, openCircuitBreaker err now cb)
  else
    (stats, cb)

/-- The three pool-configuration strategies of `initializePool`, in the
order of its `strategies` array. -/
inductive Strategy where
  | Standard
  | Minimal
  | Fallback
deriving DecidableEq, Repr

/-- Order `const strategies = [Standard, Minimal, Fallback]` of the source. -/
def strategies : List Strategy := [.Standard, .Minimal, .Fallback]

/-- Network-facing operations, recorded as a trace so that "fails without
touching the network" is a statement about the model. -/
inductive NetOp where
  | socketProbe
  | poolAcquire
  | driverQuery
deriving DecidableEq, Repr

/-- Module-level pool state: `pool` (tagged here by the strategy whose
config built it) and `isInitialized`. -/
structure PoolState where
  pool : Option Strategy := none
  isInitialized : Bool := false
deriving DecidableEq, Repr

/-- Result of `initializePool`. -/
structure InitResult where
  outcome : Except JSError Strategy
  state : PoolState
  stats : ConnectionStats
  constructed : List Strategy
  attempted : List Strategy
  trace : List NetOp
deriving Repr

/-- The `for (const strategy of strategies)` loop of `initializePool`:
construct the pool for the strategy, run its `SELECT 1` liveness check
under the 5s race (`liveness st` says whether that check succeeds), adopt
the first success, otherwise `pool.end()`/`pool = null` and continue. -/
def initializePoolLoop (liveness : Strategy → Bool) :
    List Strategy → PoolState → ConnectionStats → List Strategy → List Strategy → List NetOp →
    InitResult
  | [], s, stats, cons, att, tr =>
      ({ outcome := .error allStrategiesFailedError, state := s,
         stats := { stats with failedConnections := stats.failedConnections + 1 },
         constructed := cons, attempted := att, trace := tr } : InitResult)
  | st :: rest, s, stats, cons, att, tr =>
      let s := { s with pool := some st }
      if liveness st then
        ({ outcome := .ok st,
           state := { s with isInitialized := true },
           stats := { stats with successfulConnections := stats.successfulConnections + 1 },
           constructed := cons ++ [st], attempted := att ++ [st],
           trace := tr ++ [.driverQuery] } : InitResult)
      else
        initializePoolLoop liveness rest { s with pool := none } stats
          (cons ++ [st]) (att ++ [st]) (tr ++ [.driverQuery])

/-- Model of `initializePool()`: returns the existing pool when
`isInitialized && pool`, otherwise tries the strategies in order. -/
def initializePool (liveness : Strategy → Bool) (s : PoolState)
    (stats : ConnectionStats) : InitResult :=
  match s.pool with
  | some p =>
      if s.isInitialized then
        { outcome := .ok p, state := s, stats := stats,
          constructed := [], attempted := [], trace := [] }
      else initializePoolLoop liveness strategies s stats [] [] []
  | none => initializePoolLoop liveness strategies s stats [] [] []

/-- The codes `getConnection`'s retry callback bails on (no retry). -/
def bailCodes : List ErrCode :=
  [.ER_ACCESS_DENIED_ERROR, .ER_BAD_DB_ERROR, .ER_NO_SUCH_TABLE]

/-- The bail test in `getConnection`'s retry callback
(`error.code === 'ER_ACCESS_DENIED_ERROR' || ...`). -/
def isBailCode (e : JSError) : Bool :=
  match e.code with
  | some c => decide (c ∈ bailCodes)
  | none => false

/-- The stats update of `getConnection`'s retry callback on a non-bail
error: transient codes count as timeouts, everything else as a failed
connection.  The circuit breaker is not touched on either path. -/
def acquireFailureStats (e : JSError) (stats : ConnectionStats) : ConnectionStats :=
  if isTransientCode e.code then { stats with timeouts := stats.timeouts + 1 }
  else { stats with failedConnections := stats.failedConnections + 1 }

/-- Model of the `retry(async (bail) => ...)` loop with `retries: 3`
in `getConnection`.  `outcomes i` is the result of the `i`-th
`pool.getConnection()` attempt (`none` = a connection is returned).
Returns (outcome, number of attempts made, updated stats); the breaker
state is deliberately absent — the callback never touches it. -/
def retryAcquire (outcomes : Nat → Option JSError) :
    Nat → Nat → ConnectionStats → Except JSError Unit × Nat × ConnectionStats
  | retriesLeft, i, stats =>
    match outcomes i with
    | none => (.ok (), i + 1, stats)
    | some e =>
      if isBailCode e then (.error e, i + 1, stats)
      else
        let stats := acquireFailureStats e stats
        match retriesLeft with
        | 0 => (.error e, i + 1, stats)
        | r + 1 => retryAcquire outcomes r (i + 1) stats

/-- Result of `getConnection`. -/
structure GetConnResult where
  outcome : Except JSError Unit
  attempts : Nat
  trace : List NetOp
  cb : CircuitState
  stats : ConnectionStats
  ps : PoolState
deriving Repr

/-- Model of `getConnection()`: circuit-breaker check, lazy `initializePool`,
socket pre-check, then the retrying pool acquisition.  `socketOk` /
`socketCode` describe the raw-socket probe's result, `acquireOutcomes`
the successive `pool.getConnection()` attempts. -/
def getConnection (now : Nat) (cb : CircuitState) (stats : ConnectionStats)
    (ps : PoolState) (liveness : Strategy → Bool) (socketOk : Bool)
    (socketCode : Option ErrCode) (acquireOutcomes : Nat → Option JSError) :
    GetConnResult :=
  match isCircuitBreakerOpen now cb with
  | (true, cb) =>
      { outcome := .error circuitOpenError, attempts := 0, trace := [],
        cb := cb, stats := stats, ps := ps }
  | (false, cb) =>
    let initStep : Except JSError Unit × PoolState × ConnectionStats × List NetOp :=
      if ps.isInitialized then (.ok (), ps, stats, [])
      else
        let r := initializePool liveness ps stats
        match r.outcome with
        | .ok _ => (.ok (), r.state, r.stats, r.trace)
        | .error e => (.error e, r.state, r.stats, r.trace)
    match initStep with
    | (.error e, ps, stats, tr) =>
        { outcome := .error e, attempts := 0, trace := tr, cb := cb, stats := stats, ps := ps }
    | (.ok _, ps, stats, tr) =>
      let tr := tr ++ [.socketProbe]
      if socketOk then
        match retryAcquire acquireOutcomes 3 0 stats with
        | (out, n, stats) =>
            { outcome := out, attempts := n,
              trace := tr ++ List.replicate n .poolAcquire,
              cb := cb, stats := stats, ps := ps }
      else
        let stats := { stats with failedConnections := stats.failedConnections + 1 }
        let stats :=
          if socketCode = some .ETIMEDOUT ∨ socketCode = some .ECONNREFUSED then
            { stats with timeouts := stats.timeouts + 1 }
          else stats
        { outcome := .error socketFailedError, attempts := 0, trace := tr,
          cb := cb, stats := stats, ps := ps }

/-- Outcome of racing `connection.execute(query, params)` against the
timeout timer: the query resolves with rows, the query rejects with an
error, or the timer wins the race. -/
inductive ExecOutcome where
  | rows (n : Nat)
  | fails (e : JSError)
  | timesOut
deriving DecidableEq, Repr

/-- The codes `robustPool.js`'s retry callback bails on
(`['ER_ACCESS_DENIED_ERROR', 'ER_BAD_DB_ERROR'].includes(e.code)`). -/
def rpBailCodes : List ErrCode := [.ER_ACCESS_DENIED_ERROR, .ER_BAD_DB_ERROR]

/-- Model of the retry loop (`retries: 3`) in `robustPool.js` around
`poolRef.getConnection()`: bail on the two fatal codes, otherwise retry.
Returns (outcome, attempts made). -/
def rpRetryAcquire (outcomes : Nat → Option JSError) :
    Nat → Nat → Except JSError Unit × Nat
  | retriesLeft, i =>
    match outcomes i with
    | none => (.ok (), i + 1)
    | some e =>
      match e.code with
      | some c =>
        if c ∈ rpBailCodes then (.error e, i + 1)
        else
          match retriesLeft with
          | 0 => (.error e, i + 1)
          | r + 1 => rpRetryAcquire outcomes r (i + 1)
      | none =>
          match retriesLeft with
          | 0 => (.error e, i + 1)
          | r + 1 => rpRetryAcquire outcomes r (i + 1)

/-- Driver-level inputs of one `robustPool.query(sql, params)` call. -/
structure RPInput where
  socketOk : Bool
  socketCode : Option ErrCode
  acquireOutcomes : Nat → Option JSError
  exec : ExecOutcome

/-- Result of a query-path call: the caller-visible outcome (`.ok none`
is the null "unavailable" sentinel), whether a connection was acquired,
how many times it was released, and the network trace. -/
structure StageResult where
  outcome : Except JSError (Option Nat)
  acquired : Bool
  releases : Nat
  trace : List NetOp
deriving Repr

/-- The timeout error `robustPool.js` builds when its race timer wins:
`Object.assign(new Error('Query timeout'), { code: 'ETIMEDOUT' })`. -/
def rpTimeoutError : JSError := { code := some .ETIMEDOUT, queryTimeout_message := true }

/-- Model of `robustPool.query(sql, params)` (`robustPool.js`): socket test (no
circuit-breaker consultation), retried acquisition, query raced against
the timeout, release in `finally`.  Errors propagate to the caller. -/
def robustPoolQuery (i : RPInput) : StageResult :=
  if i.socketOk then
    match rpRetryAcquire i.acquireOutcomes 3 0 with
    | (.error e, n) =>
        { outcome := .error e, acquired := false, releases := 0,
          trace := .socketProbe :: List.replicate n .poolAcquire }
    | (.ok _, n) =>
      let tr := .socketProbe :: (List.replicate n .poolAcquire ++ [.driverQuery])
      match i.exec with
      | .rows r => { outcome := .ok (some r), acquired := true, releases := 1, trace := tr }
      | .timesOut => { outcome := .error rpTimeoutError, acquired := true, releases := 1, trace := tr }
      | .fails e => { outcome := .error e, acquired := true, releases := 1, trace := tr }
  else
    { outcome := .error { code := some (i.socketCode.getD .SOCKET_CHECK_FAILED) },
      acquired := false, releases := 0, trace := [.socketProbe] }

/-- The `catch` block of `executeQuery` in `enhanced-db-connection.js`:
transient codes or the `'Query timeout'` message yield the null sentinel
(and bump the timeout counter), lock errors yield the null sentinel,
anything else is rethrown. -/
def legacyCatch (e : JSError) (stats : ConnectionStats) :
    Except JSError (Option Nat) × ConnectionStats :=
  if isTransientCode e.code ∨ e.queryTimeout_message then
    (.ok none, { stats with timeouts := stats.timeouts + 1 })
  else if e.code = some .ER_LOCK_WAIT_TIMEOUT ∨ e.code = some .ER_LOCK_DEADLOCK then
    (.ok none, stats)
  else
    (.error e, stats)

/-- Inputs of one `executeQuery(query, params)` call: whether the
`robustPool` module was loaded, the driver-level outcomes of its attempt,
and the driver-level outcomes of the legacy path (its `getConnection`
and its raced `connection.execute`). -/
structure ExecuteQueryInput where
  robustPoolAvailable : Bool
  rp : RPInput
  now : Nat
  cb : CircuitState
  stats : ConnectionStats
  ps : PoolState
  liveness : Strategy → Bool
  socketOk : Bool
  socketCode : Option ErrCode
  acquireOutcomes : Nat → Option JSError
  exec : ExecOutcome

/-- Result of `executeQuery`, with per-connection release accounting. -/
structure QueryCallResult where
  outcome : Except JSError (Option Nat)
  rpAcquired : Bool
  rpReleases : Nat
  legacyAcquired : Bool
  legacyReleases : Nat
  trace : List NetOp
  cb : CircuitState
  stats : ConnectionStats
  ps : PoolState
deriving Repr

/-- The legacy body of `executeQuery` (after the `robustPool` delegation):
`getConnection`, the 10s `Promise.race`, the `catch` classification, and
the `finally { connection.release() }`. -/
def executeQueryLegacyRun (i : ExecuteQueryInput) : QueryCallResult :=
  let g := getConnection i.now i.cb i.stats i.ps i.liveness i.socketOk i.socketCode
      i.acquireOutcomes
  match g.outcome with
  | .error e =>
      { outcome := (legacyCatch e g.stats).1, rpAcquired := false, rpReleases := 0,
        legacyAcquired := false, legacyReleases := 0,
        trace := g.trace, cb := g.cb, stats := (legacyCatch e g.stats).2, ps := g.ps }
  | .ok _ =>
      match i.exec with
      | .rows n =>
          { outcome := .ok (some n), rpAcquired := false, rpReleases := 0,
            legacyAcquired := true, legacyReleases := 1,
            trace := g.trace ++ [.driverQuery], cb := g.cb, stats := g.stats, ps := g.ps }
      | .timesOut =>
          { outcome := (legacyCatch { queryTimeout_message := true } g.stats).1,
            rpAcquired := false, rpReleases := 0,
            legacyAcquired := true, legacyReleases := 1,
            trace := g.trace ++ [.driverQuery], cb := g.cb,
            stats := (legacyCatch { queryTimeout_message := true } g.stats).2, ps := g.ps }
      | .fails e =>
          { outcome := (legacyCatch e g.stats).1, rpAcquired := false, rpReleases := 0,
            legacyAcquired := true, legacyReleases := 1,
            trace := g.trace ++ [.driverQuery], cb := g.cb,
            stats := (legacyCatch e g.stats).2, ps := g.ps }

/-- Model of `executeQuery(query, params)`: when the `robustPool` module is
available its `query` is tried first; only if that rejects does the
legacy path run (its error is caught and logged, then control falls
through). -/
def executeQuery (i : ExecuteQueryInput) : QueryCallResult :=
  if i.robustPoolAvailable then
    let rp := robustPoolQuery i.rp
    match rp.outcome with
    | .ok r =>
        { outcome := .ok r, rpAcquired := rp.acquired, rpReleases := rp.releases,
          legacyAcquired := false, legacyReleases := 0,
          trace := rp.trace, cb := i.cb, stats := i.stats, ps := i.ps }
    | .error _ =>
        let leg := executeQueryLegacyRun i
        { leg with rpAcquired := rp.acquired, rpReleases := rp.releases,
                   trace := rp.trace ++ leg.trace }
  else
    executeQueryLegacyRun i

/-- Statement loop `for (const ... of queries)` with `connection.execute`
inside `executeTransaction`: run the statements in order, stopping at the
first failure.  `stmts` gives each statement's driver outcome. -/
def runStatements : List (Except JSError Nat) → Except JSError (List Nat)
  | [] => .ok []
  | .ok r :: rest =>
      match runStatements rest with
      | .ok rs => .ok (r :: rs)
      | .error e => .error e
  | .error e :: _ => .error e

/-- Result of `executeTransaction`. -/
structure TxnResult where
  outcome : Except JSError (List Nat)
  committed : Bool
  rolledBack : Bool
  releases : Nat
deriving Repr

/-- Model of `executeTransaction(queries)`: acquire one connection, begin, run the
statements in order, commit on success; on any error roll back (when a
connection exists) and rethrow; release in `finally` (when a connection
exists).  `acq` is the `getConnection()` outcome, `commitFails` the
outcome of `connection.commit()`. -/
def executeTransaction (acq : Except JSError Unit)
    (stmts : List (Except JSError Nat)) (commitFails : Option JSError) : TxnResult :=
  match acq with
  | .error e =>
      { outcome := .error e, committed := false, rolledBack := false, releases := 0 }
  | .ok _ =>
      match runStatements stmts with
      | .error e =>
          { outcome := .error e, committed := false, rolledBack := true, releases := 1 }
      | .ok rs =>
          match commitFails with
          | none => { outcome := .ok rs, committed := true, rolledBack := false, releases := 1 }
          | some e =>
              { outcome := .error e, committed := false, rolledBack := true, releases := 1 }

/-- Result of `healthCheck`. -/
structure HealthResult where
  healthy : Bool
  responseTime : Option Nat
deriving DecidableEq, Repr

/-- Model of `healthCheck()`: wraps one `executeQuery('SELECT 1 as health_check')`
call; any non-throwing outcome (rows or the null sentinel) yields
`healthy: true` with a response time, a thrown error yields
`healthy: false`. -/
def healthCheck (i : ExecuteQueryInput) (responseTime : Nat) : HealthResult :=
  match (executeQuery i).outcome with
  | .ok _ => { healthy := true, responseTime := some responseTime }
  | .error _ => { healthy := false, responseTime := none }

/-- Value `connectTimeout: debugTimeouts ? 20000 : 10000` in `createPool`
(`enhanced-db-connection.js`, Standard strategy). -/
def standardConnectTimeout (debugTimeouts : Bool) : Nat :=
  if debugTimeouts then 20000 else 10000

/-- Value `const connectTimeout = DEBUG_DB_TIMEOUT ? 20000 : 10000` in
`robustPool.js`'s `resolveDbConfig`. -/
def robustConnectTimeout (debugTimeouts : Bool) : Nat :=
  if debugTimeouts then 20000 else 10000

/-- The query race bound in `robustPool.js`'s `query`:
`DEBUG_DB_TIMEOUT ? 20000 : 10000`. -/
def robustQueryTimeout (debugTimeouts : Bool) : Nat :=
  if debugTimeouts then 20000 else 10000

/-- The query race bound in `executeQuery`
(`enhanced-db-connection.js`): the literal `10000`, read from no flag. -/
def executeQueryRaceTimeout : Nat := 10000

/-- The error class `executeQuery`'s `catch` converts into the null
"unavailable" sentinel: transient transport codes, the `'Query timeout'`
race message, and the two lock errors. -/
def nullSentinelClass (e : JSError) : Bool :=
  isTransientCode e.code || e.queryTimeout_message ||
  decide (e.code = some .ER_LOCK_WAIT_TIMEOUT) || decide (e.code = some .ER_LOCK_DEADLOCK)

/-- An execution outcome that `executeQuery` degrades to the null
sentinel: the race timer winning, or the query rejecting with an error of
the `nullSentinelClass`. -/
def execGraceful : ExecOutcome → Bool
  | .timesOut => true
  | .fails e => nullSentinelClass e
  | .rows _ => false

/-- The places in the source where a failure is classified and state is
updated: a direct `openCircuitBreaker(error)` call, the pool `'error'`
handler, `executeQuery`'s `catch` block, and the non-bail branch of
`getConnection`'s retry callback. -/
inductive FailureStep where
  | direct (e : JSError) (now : Nat)
  | poolError (e : JSError) (now : Nat)
  | legacyQueryFailure (e : JSError)
  | acquireFailure (e : JSError)
deriving Repr

/-- The error a failure step processes. -/
def FailureStep.err : FailureStep → JSError
  | .direct e _ => e
  | .poolError e _ => e
  | .legacyQueryFailure e => e
  | .acquireFailure e => e

/-- Effect of one failure step on the shared (circuit breaker, stats)
state, exactly as the corresponding source handler performs it. -/
def applyFailureStep (p : CircuitState × ConnectionStats) :
    FailureStep → CircuitState × ConnectionStats
  | .direct e now => (openCircuitBreaker e now p.1, p.2)
  | .poolError e now =>
      ((poolErrorHandler e now p.2 p.1).2, (poolErrorHandler e now p.2 p.1).1)
  | .legacyQueryFailure e => (p.1, (legacyCatch e p.2).2)
  | .acquireFailure e => (p.1, acquireFailureStats e p.2)

/-- A pool state in which a pool was already successfully initialized. -/
def initializedPoolState : PoolState := { pool := some .Standard, isInitialized := true }

/-- A DNS-failure driver error (`error.code === 'ENOTFOUND'`), classified
as fatal by `openCircuitBreaker`'s `fatalErrors` list. -/
def enotfoundError : JSError := { code := some .ENOTFOUND }

/-- An authentication-rejected driver error
(`error.code === 'ER_ACCESS_DENIED_ERROR'`). -/
def accessDeniedError : JSError := { code := some .ER_ACCESS_DENIED_ERROR }

/-- A `robustPool.query` call against a healthy backend: socket probe
passes, the first acquisition attempt returns a connection, the query
resolves with one row. -/
def rpHealthyInput : RPInput :=
  { socketOk := true, socketCode := none, acquireOutcomes := fun _ => none, exec := .rows 1 }

/-- An `executeQuery` call made while the circuit breaker is open
(30 s cooldown not elapsed) with the `robustPool` module loaded and its
backend healthy. -/
def openCircuitRobustInput : ExecuteQueryInput :=
  { robustPoolAvailable := true, rp := rpHealthyInput,
    now := 1000, cb := { circuitBreakerOpen := true, lastFailureTime := 0 },
    stats := {}, ps := initializedPoolState,
    liveness := fun _ => true, socketOk := true, socketCode := none,
    acquireOutcomes := fun _ => none, exec := .rows 1 }

/-- An `executeQuery` call (no `robustPool` module) whose connection is
acquired on the first attempt but whose query loses the 10 s race. -/
def timingOutQueryInput : ExecuteQueryInput :=
  { robustPoolAvailable := false, rp := rpHealthyInput,
    now := 1000, cb := { circuitBreakerOpen := false, lastFailureTime := 0 },
    stats := {}, ps := initializedPoolState,
    liveness := fun _ => true, socketOk := true, socketCode := none,
    acquireOutcomes := fun _ => none, exec := .timesOut }

/-- A liveness pattern for the C7 scenario: Standard's check fails,
Minimal's succeeds. -/
def standardFailsMinimalWorks : Strategy → Bool
  | .Standard => false
  | .Minimal => true
  | .Fallback => false

/-! ## Theorems -/

/-- A transient-coded error never makes `openCircuitBreaker` open the
breaker: its code is not in `fatalErrors`. -/
theorem openCircuitBreaker_transient (e : JSError) (now : Nat) (cb : CircuitState)
    (h : isTransientCode e.code = true) : openCircuitBreaker e now cb = cb := by
  cases he : e.code with
  | none => simp [openCircuitBreaker, he]
  | some c =>
    rw [he] at h
    cases c <;> simp_all [isTransientCode, openCircuitBreaker, fatalErrors]

/-- The pool `'error'` handler leaves the breaker untouched on a
transient-coded error. -/
theorem poolErrorHandler_transient (e : JSError) (now : Nat) (stats : ConnectionStats)
    (cb : CircuitState) (h : isTransientCode e.code = true) :
    (poolErrorHandler e now stats cb).2 = cb := by
  simp [poolErrorHandler, h]

/-- Every failure-classification step preserves a closed breaker when the
processed error is transient. -/
theorem applyFailureStep_transient (p : CircuitState × ConnectionStats) (s : FailureStep)
    (h : isTransientCode s.err.code = true)
    (hcb : p.1.circuitBreakerOpen = false) :
    (applyFailureStep p s).1.circuitBreakerOpen = false := by
  cases s with
  | direct e now =>
      have h1 := openCircuitBreaker_transient e now p.1 (by simpa [FailureStep.err] using h)
      simpa [applyFailureStep, h1] using hcb
  | poolError e now =>
      have h1 := poolErrorHandler_transient e now p.2 p.1 (by simpa [FailureStep.err] using h)
      simpa [applyFailureStep, h1] using hcb
  | legacyQueryFailure e => simpa [applyFailureStep] using hcb
  | acquireFailure e => simpa [applyFailureStep] using hcb

/-- C1: for every error classified as transient (code ETIMEDOUT,
ECONNRESET, or PROTOCOL_CONNECTION_LOST), recording any number of such
failures through the failure-classification paths (`openCircuitBreaker`,
the pool `'error'` handler, `executeQuery`'s catch, `getConnection`'s
retry callback) never opens the circuit breaker: `circuitBreakerOpen`
remains false if it was false before. -/
theorem transient_failures_never_open_circuit (steps : List FailureStep) :
    ∀ (cb : CircuitState) (stats : ConnectionStats),
      (∀ s ∈ steps, isTransientCode s.err.code = true) →
      cb.circuitBreakerOpen = false →
      (steps.foldl applyFailureStep (cb, stats)).1.circuitBreakerOpen = false := by
  induction steps with
  | nil => intro cb stats _ hcb; simpa using hcb
  | cons s rest ih =>
      intro cb stats h hcb
      rw [List.foldl_cons]
      have h1 := applyFailureStep_transient (cb, stats) s (h s (List.mem_cons_self s rest)) hcb
      rcases hq : applyFailureStep (cb, stats) s with ⟨cb', st'⟩
      rw [hq] at h1
      exact ih cb' st' (fun t ht => h t (List.mem_cons_of_mem s ht)) h1

/-- A concrete sequence of six transient failures hitting all four
classification paths. -/
def transientSteps : List FailureStep :=
  [.direct { code := some .ETIMEDOUT } 5,
   .poolError { code := some .ECONNRESET } 9,
   .legacyQueryFailure { code := some .PROTOCOL_CONNECTION_LOST },
   .acquireFailure { code := some .ETIMEDOUT },
   .poolError { code := some .ETIMEDOUT } 12,
   .direct { code := some .ECONNRESET } 20]

/-- Witness for C1 at a concrete six-step transient failure sequence. -/
theorem transient_failures_never_open_circuit_witness :
    (∀ s ∈ transientSteps, isTransientCode s.err.code = true) ∧
    (transientSteps.foldl applyFailureStep
      ({ circuitBreakerOpen := false, lastFailureTime := 0 }, {})).1.circuitBreakerOpen = false :=
  ⟨by decide, transient_failures_never_open_circuit transientSteps _ _ (by decide) rfl⟩

/-- C4: once the breaker is open, `isCircuitBreakerOpen` returns true (and
keeps the state) for every call with elapsed time at most the 30 s
cooldown, auto-closes and returns false on a call after the cooldown
elapsed, and a manual `resetCircuitBreaker` yields a state the check
reports closed. -/
theorem circuit_open_cooldown (cb : CircuitState) (now : Nat)
    (hopen : cb.circuitBreakerOpen = true) :
    (now - cb.lastFailureTime ≤ circuitBreakerTimeout →
      isCircuitBreakerOpen now cb = (true, cb)) ∧
    (now - cb.lastFailureTime > circuitBreakerTimeout →
      isCircuitBreakerOpen now cb = (false, { cb with circuitBreakerOpen := false })) ∧
    resetCircuitBreaker.circuitBreakerOpen = false ∧
    (∀ t, isCircuitBreakerOpen t resetCircuitBreaker = (false, resetCircuitBreaker)) := by
  refine ⟨?_, ?_, rfl, fun t => rfl⟩
  · intro hle
    have hng : ¬ (now - cb.lastFailureTime > circuitBreakerTimeout) := by omega
    simp [isCircuitBreakerOpen, hopen, hng]
  · intro hgt
    simp [isCircuitBreakerOpen, hopen, hgt]

/-- Witness for C4: a breaker opened at time 0 is reported open at 10 s
and closed (with the state auto-closed) at 40 s. -/
theorem circuit_open_cooldown_witness :
    ({ circuitBreakerOpen := true, lastFailureTime := 0 } : CircuitState).circuitBreakerOpen = true ∧
    isCircuitBreakerOpen 10000 { circuitBreakerOpen := true, lastFailureTime := 0 } =
      (true, { circuitBreakerOpen := true, lastFailureTime := 0 }) ∧
    isCircuitBreakerOpen 40000 { circuitBreakerOpen := true, lastFailureTime := 0 } =
      (false, { circuitBreakerOpen := false, lastFailureTime := 0 }) :=
  ⟨rfl,
   (circuit_open_cooldown _ 10000 rfl).1 (by decide),
   (circuit_open_cooldown _ 40000 rfl).2.1 (by decide)⟩

/-- C7: pool initialization tries the three strategies in the fixed order
Standard, Minimal, Fallback; the first strategy whose liveness check
succeeds is adopted and no later strategy is attempted; if all three
liveness checks fail, `initializePool` throws. -/
theorem initializePool_strategy_selection (liveness : Strategy → Bool) (s : PoolState)
    (stats : ConnectionStats) (h : s.isInitialized = false) :
    strategies = [.Standard, .Minimal, .Fallback] ∧
    (initializePool liveness s stats).attempted =
      strategies.takeWhile (fun st => !liveness st) ++ (strategies.find? liveness).toList ∧
    (∀ st, strategies.find? liveness = some st →
      (initializePool liveness s stats).outcome = .ok st ∧
      (initializePool liveness s stats).state.pool = some st ∧
      (initializePool liveness s stats).state.isInitialized = true) ∧
    (strategies.find? liveness = none →
      (initializePool liveness s stats).outcome = .error allStrategiesFailedError) := by
  cases hP : s.pool <;>
    cases hS : liveness .Standard <;> cases hM : liveness .Minimal <;>
      cases hF : liveness .Fallback <;>
        simp_all [initializePool, initializePoolLoop, strategies, List.find?]

/-- Witness for C7: with Standard failing its liveness check and Minimal
passing, Minimal is adopted and Fallback is never attempted. -/
theorem initializePool_strategy_selection_witness :
    (({} : PoolState).isInitialized = false) ∧
    (initializePool standardFailsMinimalWorks {} {}).attempted = [.Standard, .Minimal] ∧
    (initializePool standardFailsMinimalWorks {} {}).outcome = .ok .Minimal :=
  ⟨rfl,
   by
    have h := initializePool_strategy_selection standardFailsMinimalWorks {} {} rfl
    simpa [strategies, standardFailsMinimalWorks, List.find?] using h.2.1,
   ((initializePool_strategy_selection standardFailsMinimalWorks {} {} rfl).2.2.1 .Minimal
     (by decide)).1⟩

/-- Every successful `initializePoolLoop` run leaves the state initialized
with the adopted strategy's pool. -/
theorem initializePoolLoop_ok_state (liveness : Strategy → Bool) (l : List Strategy) :
    ∀ (s : PoolState) (stats : ConnectionStats) (cons att : List Strategy) (tr : List NetOp)
      (p : Strategy),
      (initializePoolLoop liveness l s stats cons att tr).outcome = .ok p →
      (initializePoolLoop liveness l s stats cons att tr).state.isInitialized = true ∧
      (initializePoolLoop liveness l s stats cons att tr).state.pool = some p := by
  induction l with
  | nil => intro s stats cons att tr p h; simp [initializePoolLoop] at h
  | cons st rest ih =>
      intro s stats cons att tr p h
      by_cases hl : liveness st = true
      · simp_all [initializePoolLoop, hl]
      · rw [Bool.not_eq_true] at hl
        simp only [initializePoolLoop, hl, Bool.false_eq_true, if_false] at h ⊢
        exact ih _ _ _ _ _ p h

/-- Every successful `initializePool` call leaves the state initialized
with the returned pool. -/
theorem initializePool_ok_state (liveness : Strategy → Bool) (s : PoolState)
    (stats : ConnectionStats) (p : Strategy)
    (h : (initializePool liveness s stats).outcome = .ok p) :
    (initializePool liveness s stats).state.isInitialized = true ∧
    (initializePool liveness s stats).state.pool = some p := by
  cases hP : s.pool with
  | none =>
      simp only [initializePool, hP] at h ⊢
      exact initializePoolLoop_ok_state liveness strategies _ _ _ _ _ p h
  | some q =>
      by_cases hI : s.isInitialized = true
      · simp_all [initializePool, hP, hI]
      · rw [Bool.not_eq_true] at hI
        simp only [initializePool, hP, hI, Bool.false_eq_true, if_false] at h ⊢
        exact initializePoolLoop_ok_state liveness strategies _ _ _ _ _ p h

/-- C8: `initializePool` is idempotent — after a successful
initialization (and no `closePool`), a second call returns the same pool,
constructs no new pool, runs no liveness check, and leaves the state
unchanged. -/
theorem initializePool_idempotent (l1 l2 : Strategy → Bool) (s : PoolState)
    (st1 st2 : ConnectionStats) (p : Strategy)
    (h : (initializePool l1 s st1).outcome = .ok p) :
    (initializePool l2 (initializePool l1 s st1).state st2).outcome = .ok p ∧
    (initializePool l2 (initializePool l1 s st1).state st2).state =
      (initializePool l1 s st1).state ∧
    (initializePool l2 (initializePool l1 s st1).state st2).constructed = [] ∧
    (initializePool l2 (initializePool l1 s st1).state st2).attempted = [] ∧
    (initializePool l2 (initializePool l1 s st1).state st2).trace = [] := by
  obtain ⟨hI, hP⟩ := initializePool_ok_state l1 s st1 p h
  generalize hG : (initializePool l1 s st1).state = t at hI hP ⊢
  simp [initializePool, hP, hI]

/-- Witness for C8: initialize from the empty state with every liveness
check passing, then call again. -/
theorem initializePool_idempotent_witness :
    (initializePool (fun _ => true) {} {}).outcome = .ok .Standard ∧
    (initializePool (fun _ => true) (initializePool (fun _ => true) {} {}).state {}).outcome =
      .ok .Standard ∧
    (initializePool (fun _ => true) (initializePool (fun _ => true) {} {}).state {}).constructed = [] :=
  ⟨rfl,
   (initializePool_idempotent (fun _ => true) (fun _ => true) {} {} {} .Standard rfl).1,
   (initializePool_idempotent (fun _ => true) (fun _ => true) {} {} {} .Standard rfl).2.2.1⟩

/-- With the breaker closed, the pool initialized and the socket
pre-check passing, `getConnection` reduces to the retrying acquisition
loop. -/
theorem getConnection_closed_init (now : Nat) (cb : CircuitState) (stats : ConnectionStats)
    (ps : PoolState) (liveness : Strategy → Bool) (sc : Option ErrCode)
    (outcomes : Nat → Option JSError)
    (hcb : cb.circuitBreakerOpen = false) (hps : ps.isInitialized = true) :
    getConnection now cb stats ps liveness true sc outcomes =
      { outcome := (retryAcquire outcomes 3 0 stats).1,
        attempts := (retryAcquire outcomes 3 0 stats).2.1,
        trace := .socketProbe ::
          List.replicate (retryAcquire outcomes 3 0 stats).2.1 .poolAcquire,
        cb := cb, stats := (retryAcquire outcomes 3 0 stats).2.2, ps := ps } := by
  have hclosed : isCircuitBreakerOpen now cb = (false, cb) := by
    simp [isCircuitBreakerOpen, hcb]
  rcases hR : retryAcquire outcomes 3 0 stats with ⟨out, n, st2⟩
  simp [getConnection, hclosed, hps, hR]

/-- A constant non-bail acquisition failure exhausts the retries: with
`r` retries left and `i` attempts already made, the loop returns the
error after `i + r + 1` total attempts. -/
theorem retryAcquire_const_failure (outcomes : Nat → Option JSError) (e : JSError)
    (hnb : isBailCode e = false) :
    ∀ (r i : Nat) (st : ConnectionStats), (∀ n, outcomes n = some e) →
      (retryAcquire outcomes r i st).1 = .error e ∧
      (retryAcquire outcomes r i st).2.1 = i + r + 1 := by
  intro r
  induction r with
  | zero => intro i st h; rw [retryAcquire, h i]; simp [hnb]
  | succ k ih =>
      intro i st h
      rw [retryAcquire, h i]
      simp only [hnb, Bool.false_eq_true, if_false]
      have := ih (i + 1) (acquireFailureStats e st) h
      exact ⟨this.1, by rw [this.2]; omega⟩

/-- Counterexample to C2: four consecutive fatal-classified acquisition
errors (code ENOTFOUND, a member of `fatalErrors`) produce 4 attempts,
not 1, and leave the circuit breaker closed; even a bailing fatal error
(ER_ACCESS_DENIED_ERROR) makes its single attempt without opening the
breaker. -/
theorem fatal_acquisition_counterexample :
    (enotfoundError.code = some .ENOTFOUND ∧ ErrCode.ENOTFOUND ∈ fatalErrors) ∧
    (getConnection 1000 { circuitBreakerOpen := false, lastFailureTime := 0 } {}
        initializedPoolState (fun _ => true) true none
        (fun _ => some enotfoundError)).attempts = 4 ∧
    (getConnection 1000 { circuitBreakerOpen := false, lastFailureTime := 0 } {}
        initializedPoolState (fun _ => true) true none
        (fun _ => some enotfoundError)).cb.circuitBreakerOpen = false ∧
    (getConnection 1000 { circuitBreakerOpen := false, lastFailureTime := 0 } {}
        initializedPoolState (fun _ => true) true none
        (fun _ => some accessDeniedError)).attempts = 1 ∧
    (getConnection 1000 { circuitBreakerOpen := false, lastFailureTime := 0 } {}
        initializedPoolState (fun _ => true) true none
        (fun _ => some accessDeniedError)).cb.circuitBreakerOpen = false := by
  decide

/-- C2 (amended): acquisition errors coded ER_ACCESS_DENIED_ERROR,
ER_BAD_DB_ERROR or ER_NO_SUCH_TABLE make `getConnection` bail after
exactly one attempt with no retries, but leave the circuit-breaker state
unchanged; ENOTFOUND / ECONNREFUSED errors are retried — four consecutive
ones under `retries: 3` yield exactly four attempts — also without
touching the breaker; the breaker opens only through the pool `'error'`
handler, when a fatal-coded error arrives with the failed-connection
counter above 3. -/
theorem fatal_acquisition_behaviour (now : Nat) (cb : CircuitState)
    (stats : ConnectionStats) (ps : PoolState) (liveness : Strategy → Bool)
    (e : JSError) (c : ErrCode) (outcomes : Nat → Option JSError)
    (hcb : cb.circuitBreakerOpen = false) (hps : ps.isInitialized = true)
    (he : e.code = some c) :
    (c ∈ bailCodes → outcomes 0 = some e →
      (getConnection now cb stats ps liveness true none outcomes).attempts = 1 ∧
      (getConnection now cb stats ps liveness true none outcomes).outcome = .error e ∧
      (getConnection now cb stats ps liveness true none outcomes).cb = cb) ∧
    ((c = .ENOTFOUND ∨ c = .ECONNREFUSED) → (∀ n, outcomes n = some e) →
      (getConnection now cb stats ps liveness true none outcomes).attempts = 4 ∧
      (getConnection now cb stats ps liveness true none outcomes).cb = cb) ∧
    (∀ (stats' : ConnectionStats) (e' : JSError) (c' : ErrCode) (now' : Nat)
        (cb' : CircuitState),
      e'.code = some c' → c' ∈ fatalErrors → stats'.failedConnections + 1 > 3 →
      (poolErrorHandler e' now' stats' cb').2.circuitBreakerOpen = true) := by
  refine ⟨?_, ?_, ?_⟩
  · intro hc h0
    have hbail : isBailCode e = true := by simp [isBailCode, he, hc]
    have hr : retryAcquire outcomes 3 0 stats = (.error e, 1, stats) := by
      rw [retryAcquire, h0]; simp [hbail]
    rw [getConnection_closed_init now cb stats ps liveness none outcomes hcb hps]
    exact ⟨by simp [hr], by simp [hr], rfl⟩
  · intro hc houtcomes
    have hnb : isBailCode e = false := by
      rcases hc with h | h <;> subst h <;> simp [isBailCode, he, bailCodes]
    have hr := retryAcquire_const_failure outcomes e hnb 3 0 stats houtcomes
    rw [getConnection_closed_init now cb stats ps liveness none outcomes hcb hps]
    exact ⟨by simp [hr.2], rfl⟩
  · intro stats' e' c' now' cb' he' hf hgt
    have hnt : isTransientCode (some c') = false := by
      fin_cases hf <;> rfl
    simp [poolErrorHandler, hnt, hgt, openCircuitBreaker, he', hf]

/-- Witness for the amended C2 at an access-denied error: one attempt,
bailed, breaker untouched. -/
theorem fatal_acquisition_behaviour_witness :
    accessDeniedError.code = some ErrCode.ER_ACCESS_DENIED_ERROR ∧
    ErrCode.ER_ACCESS_DENIED_ERROR ∈ bailCodes ∧
    (getConnection 50 { circuitBreakerOpen := false, lastFailureTime := 0 } {}
      initializedPoolState (fun _ => true) true none
      (fun _ => some accessDeniedError)).attempts = 1 :=
  ⟨rfl, by decide,
   ((fatal_acquisition_behaviour 50 { circuitBreakerOpen := false, lastFailureTime := 0 }
      {} initializedPoolState (fun _ => true) accessDeniedError .ER_ACCESS_DENIED_ERROR
      (fun _ => some accessDeniedError) rfl rfl rfl).1 (by decide) rfl).1⟩

/-- Every `robustPool.query` call probes the network: its trace always
contains the raw socket probe, whatever the circuit state. -/
theorem robustPoolQuery_probes (r : RPInput) : .socketProbe ∈ (robustPoolQuery r).trace := by
  by_cases hs : r.socketOk = true
  · rcases hR : rpRetryAcquire r.acquireOutcomes 3 0 with ⟨out, n⟩
    cases out <;> cases hex : r.exec <;> simp [robustPoolQuery, hs, hR, hex]
  · rw [Bool.not_eq_true] at hs
    simp [robustPoolQuery, hs]

/-- With the breaker open within the cooldown, `getConnection` fails
immediately with the circuit-open error and an empty network trace. -/
theorem getConnection_circuit_open (now : Nat) (cb : CircuitState) (stats : ConnectionStats)
    (ps : PoolState) (liveness : Strategy → Bool) (sOk : Bool) (sc : Option ErrCode)
    (ao : Nat → Option JSError) (hopen : cb.circuitBreakerOpen = true)
    (hcool : now - cb.lastFailureTime ≤ circuitBreakerTimeout) :
    getConnection now cb stats ps liveness sOk sc ao =
      { outcome := .error circuitOpenError, attempts := 0, trace := [],
        cb := cb, stats := stats, ps := ps } := by
  have hng : ¬ (now - cb.lastFailureTime > circuitBreakerTimeout) := by omega
  have hOpen : isCircuitBreakerOpen now cb = (true, cb) := by
    simp [isCircuitBreakerOpen, hopen, hng]
  simp [getConnection, hOpen]

/-- Counterexample to C3: with the breaker open (cooldown not elapsed)
but the `robustPool` module loaded and its backend healthy,
`executeQuery` returns rows and performs network operations instead of
failing immediately with the circuit-open error. -/
theorem circuit_open_query_counterexample :
    openCircuitRobustInput.cb.circuitBreakerOpen = true ∧
    openCircuitRobustInput.now - openCircuitRobustInput.cb.lastFailureTime ≤
      circuitBreakerTimeout ∧
    (executeQuery openCircuitRobustInput).outcome = .ok (some 1) ∧
    (executeQuery openCircuitRobustInput).trace = [.socketProbe, .poolAcquire, .driverQuery] :=
  ⟨rfl, by decide, rfl, rfl⟩

/-- C3 (amended): while the breaker is open within the cooldown,
`getConnection` fails immediately with the distinguishable circuit-open
error and performs no network operation, and `executeQuery` without the
`robustPool` module rethrows that same error with no network operation;
but when `robustPool` is loaded, `executeQuery` first delegates to
`robustPool.query`, which never consults the breaker and always probes
the network. -/
theorem circuit_open_fast_fail (now : Nat) (cb : CircuitState) (stats : ConnectionStats)
    (ps : PoolState) (liveness : Strategy → Bool) (sOk : Bool) (sc : Option ErrCode)
    (ao : Nat → Option JSError)
    (hopen : cb.circuitBreakerOpen = true)
    (hcool : now - cb.lastFailureTime ≤ circuitBreakerTimeout) :
    getConnection now cb stats ps liveness sOk sc ao =
      { outcome := .error circuitOpenError, attempts := 0, trace := [],
        cb := cb, stats := stats, ps := ps } ∧
    (∀ i : ExecuteQueryInput, i.robustPoolAvailable = false →
      i.cb.circuitBreakerOpen = true →
      i.now - i.cb.lastFailureTime ≤ circuitBreakerTimeout →
      (executeQuery i).outcome = .error circuitOpenError ∧ (executeQuery i).trace = []) ∧
    (∀ i : ExecuteQueryInput, i.robustPoolAvailable = true →
      .socketProbe ∈ (executeQuery i).trace) := by
  refine ⟨getConnection_circuit_open now cb stats ps liveness sOk sc ao hopen hcool, ?_, ?_⟩
  · intro i h1 h2 h3
    have hg := getConnection_circuit_open i.now i.cb i.stats i.ps i.liveness i.socketOk
      i.socketCode i.acquireOutcomes h2 h3
    simp [executeQuery, h1, executeQueryLegacyRun, hg, legacyCatch, circuitOpenError,
      isTransientCode]
  · intro i h1
    have hm := robustPoolQuery_probes i.rp
    cases hout : (robustPoolQuery i.rp).outcome with
    | ok r =>
        simp only [executeQuery, h1, if_true, hout]
        simpa using hm
    | error e =>
        simp only [executeQuery, h1, if_true, hout]
        simpa using Or.inl hm

/-- Witness for the amended C3: a breaker opened at time 0, queried at
time 1000. -/
theorem circuit_open_fast_fail_witness :
    ({ circuitBreakerOpen := true, lastFailureTime := 0 } : CircuitState).circuitBreakerOpen
      = true ∧
    (1000 : Nat) - 0 ≤ circuitBreakerTimeout ∧
    getConnection 1000 { circuitBreakerOpen := true, lastFailureTime := 0 } {}
        initializedPoolState (fun _ => true) true none (fun _ => none) =
      { outcome := .error circuitOpenError, attempts := 0, trace := [],
        cb := { circuitBreakerOpen := true, lastFailureTime := 0 }, stats := {},
        ps := initializedPoolState } :=
  ⟨rfl, by decide,
   (circuit_open_fast_fail 1000 { circuitBreakerOpen := true, lastFailureTime := 0 } {}
      initializedPoolState (fun _ => true) true none (fun _ => none) rfl (by decide)).1⟩

/-- Lemma: `legacyCatch` returns the null sentinel exactly on the
`nullSentinelClass` errors, and rethrows everything else. -/
theorem legacyCatch_eq (e : JSError) (stats : ConnectionStats) :
    (legacyCatch e stats).1 =
      if nullSentinelClass e = true then .ok none else .error e := by
  unfold legacyCatch nullSentinelClass
  by_cases h1 : isTransientCode e.code = true <;>
    by_cases h2 : e.queryTimeout_message = true <;>
      by_cases h3 : e.code = some .ER_LOCK_WAIT_TIMEOUT <;>
        by_cases h4 : e.code = some .ER_LOCK_DEADLOCK <;>
          simp [h1, h2, h3, h4] <;> simp [isTransientCode]

/-- With breaker closed, pool initialized, socket probe passing and the
first acquisition attempt returning a connection, `getConnection`
succeeds after one attempt. -/
theorem getConnection_first_try (now : Nat) (cb : CircuitState) (stats : ConnectionStats)
    (ps : PoolState) (liveness : Strategy → Bool) (sc : Option ErrCode)
    (outcomes : Nat → Option JSError)
    (hcb : cb.circuitBreakerOpen = false) (hps : ps.isInitialized = true)
    (h0 : outcomes 0 = none) :
    getConnection now cb stats ps liveness true sc outcomes =
      { outcome := .ok (), attempts := 1, trace := [.socketProbe, .poolAcquire],
        cb := cb, stats := stats, ps := ps } := by
  have hr : retryAcquire outcomes 3 0 stats = (.ok (), 1, stats) := by
    rw [retryAcquire, h0]
  rw [getConnection_closed_init now cb stats ps liveness sc outcomes hcb hps]
  simp [hr]

/-- Behaviour of `robustPool.query` against a connection whose query loses the race:
released once, timeout error propagated. -/
theorem robustPoolQuery_timesOut (r : RPInput) (hs : r.socketOk = true)
    (h0 : r.acquireOutcomes 0 = none) (hex : r.exec = .timesOut) :
    robustPoolQuery r =
      { outcome := .error rpTimeoutError, acquired := true, releases := 1,
        trace := [.socketProbe, .poolAcquire, .driverQuery] } := by
  have hr : rpRetryAcquire r.acquireOutcomes 3 0 = (.ok (), 1) := by
    rw [rpRetryAcquire, h0]
  simp [robustPoolQuery, hs, hr, hex]

/-- Release accounting: `robustPool.query` releases its connection exactly once when it
acquired one, and zero times otherwise. -/
theorem robustPoolQuery_release_once (r : RPInput) :
    (robustPoolQuery r).releases = if (robustPoolQuery r).acquired then 1 else 0 := by
  unfold robustPoolQuery
  by_cases hs : r.socketOk = true
  · rcases hR : rpRetryAcquire r.acquireOutcomes 3 0 with ⟨out, n⟩
    cases out <;> cases r.exec <;> simp [hs, hR]
  · rw [Bool.not_eq_true] at hs
    simp [hs]

/-- The legacy `executeQuery` body releases its connection exactly once
when it acquired one, never touches a robust-pool connection. -/
theorem executeQueryLegacyRun_release_once (i : ExecuteQueryInput) :
    (executeQueryLegacyRun i).legacyReleases =
      (if (executeQueryLegacyRun i).legacyAcquired then 1 else 0) ∧
    (executeQueryLegacyRun i).rpReleases = 0 ∧
    (executeQueryLegacyRun i).rpAcquired = false := by
  unfold executeQueryLegacyRun
  cases hg : (getConnection i.now i.cb i.stats i.ps i.liveness i.socketOk i.socketCode
      i.acquireOutcomes).outcome with
  | error e => simp [hg]
  | ok u => cases i.exec <;> simp [hg]

/-- C5: every connection acquired during an `executeQuery` call is
released exactly once; a query execution that times out or fails with a
transient transport or lock error yields the null "unavailable" sentinel
instead of throwing (also when the robust-pool attempt timed out first);
any other execution error is rethrown after release. -/
theorem query_transient_null_and_release :
    (∀ i : ExecuteQueryInput,
      (executeQuery i).rpReleases = (if (executeQuery i).rpAcquired then 1 else 0) ∧
      (executeQuery i).legacyReleases =
        (if (executeQuery i).legacyAcquired then 1 else 0)) ∧
    (∀ i : ExecuteQueryInput, i.robustPoolAvailable = false →
      i.cb.circuitBreakerOpen = false → i.ps.isInitialized = true →
      i.socketOk = true → i.acquireOutcomes 0 = none →
      execGraceful i.exec = true →
      (executeQuery i).outcome = .ok none ∧
      (executeQuery i).legacyAcquired = true ∧ (executeQuery i).legacyReleases = 1) ∧
    (∀ i : ExecuteQueryInput, i.robustPoolAvailable = true →
      i.rp.socketOk = true → i.rp.acquireOutcomes 0 = none → i.rp.exec = .timesOut →
      i.cb.circuitBreakerOpen = false → i.ps.isInitialized = true →
      i.socketOk = true → i.acquireOutcomes 0 = none → i.exec = .timesOut →
      (executeQuery i).outcome = .ok none ∧
      (executeQuery i).rpAcquired = true ∧ (executeQuery i).rpReleases = 1 ∧
      (executeQuery i).legacyAcquired = true ∧ (executeQuery i).legacyReleases = 1) ∧
    (∀ (i : ExecuteQueryInput) (e : JSError), i.robustPoolAvailable = false →
      i.cb.circuitBreakerOpen = false → i.ps.isInitialized = true →
      i.socketOk = true → i.acquireOutcomes 0 = none →
      i.exec = .fails e → nullSentinelClass e = false →
      (executeQuery i).outcome = .error e ∧ (executeQuery i).legacyReleases = 1) := by
  refine ⟨?_, ?_, ?_, ?_⟩
  · intro i
    by_cases h1 : i.robustPoolAvailable = true
    · cases hout : (robustPoolQuery i.rp).outcome with
      | ok r =>
          have hr := robustPoolQuery_release_once i.rp
          simp only [executeQuery, h1, if_true, hout]
          simp [hr]
      | error e =>
          have hr := robustPoolQuery_release_once i.rp
          have hl := executeQueryLegacyRun_release_once i
          simp only [executeQuery, h1, if_true, hout]
          simp [hr, hl.1, hl.2.1, hl.2.2]
    · rw [Bool.not_eq_true] at h1
      have hl := executeQueryLegacyRun_release_once i
      simp only [executeQuery, h1, Bool.false_eq_true, if_false]
      exact ⟨by simp [hl.2.1, hl.2.2], hl.1⟩
  · intro i h1 hcb hps hsok h0 hgr
    have hg := getConnection_first_try i.now i.cb i.stats i.ps i.liveness i.socketCode
      i.acquireOutcomes hcb hps h0
    cases hex : i.exec with
    | rows n => rw [hex] at hgr; simp [execGraceful] at hgr
    | timesOut =>
        simp [executeQuery, h1, executeQueryLegacyRun, hsok, hg, hex, legacyCatch_eq,
          nullSentinelClass, isTransientCode]
    | fails e2 =>
        rw [hex] at hgr
        have hnull : nullSentinelClass e2 = true := by simpa [execGraceful] using hgr
        simp [executeQuery, h1, executeQueryLegacyRun, hsok, hg, hex, legacyCatch_eq, hnull]
  · intro i h1 hs h0rp hexrp hcb hps hsok h0 hex
    have hrp := robustPoolQuery_timesOut i.rp hs h0rp hexrp
    have hg := getConnection_first_try i.now i.cb i.stats i.ps i.liveness i.socketCode
      i.acquireOutcomes hcb hps h0
    simp [executeQuery, h1, hrp, executeQueryLegacyRun, hsok, hg, hex, legacyCatch_eq,
      nullSentinelClass, isTransientCode]
  · intro i e2 h1 hcb hps hsok h0 hex hnn
    have hg := getConnection_first_try i.now i.cb i.stats i.ps i.liveness i.socketCode
      i.acquireOutcomes hcb hps h0
    simp [executeQuery, h1, executeQueryLegacyRun, hsok, hg, hex, legacyCatch_eq, hnn]

/-- Witness for C5 at an always-timing-out query (no robust pool): the
null sentinel is returned and the one acquired connection is released
once. -/
theorem query_transient_null_and_release_witness :
    timingOutQueryInput.robustPoolAvailable = false ∧
    execGraceful timingOutQueryInput.exec = true ∧
    (executeQuery timingOutQueryInput).outcome = .ok none ∧
    (executeQuery timingOutQueryInput).legacyReleases = 1 :=
  ⟨rfl, rfl,
   (query_transient_null_and_release.2.1 timingOutQueryInput rfl rfl rfl rfl rfl rfl).1,
   (query_transient_null_and_release.2.1 timingOutQueryInput rfl rfl rfl rfl rfl rfl).2.2⟩

/-- A list of all-successful statements runs through in order. -/
theorem runStatements_ok (l : List Nat) : runStatements (l.map Except.ok) = .ok l := by
  induction l with
  | nil => rfl
  | cons x xs ih => simp [runStatements, ih]

/-- A failure anywhere in the sequence surfaces as that failure. -/
theorem runStatements_failure (pre : List Nat) (e : JSError)
    (post : List (Except JSError Nat)) :
    runStatements (pre.map Except.ok ++ .error e :: post) = .error e := by
  induction pre with
  | nil => rfl
  | cons x xs ih => simp [runStatements, ih]

/-- C6: a transaction whose statement sequence fails at any point
(including mid-sequence) is rolled back with nothing committed, the
error is rethrown, and the connection is released exactly once; on
success all statements run in order on the one connection, are committed,
and the connection is still released exactly once. -/
theorem executeTransaction_atomic :
    (∀ (pre : List Nat) (e : JSError) (post : List (Except JSError Nat))
        (commitFails : Option JSError),
      executeTransaction (.ok ()) (pre.map Except.ok ++ .error e :: post) commitFails =
        { outcome := .error e, committed := false, rolledBack := true, releases := 1 }) ∧
    (∀ l : List Nat,
      executeTransaction (.ok ()) (l.map Except.ok) none =
        { outcome := .ok l, committed := true, rolledBack := false, releases := 1 }) ∧
    (∀ (acq : Except JSError Unit) (stmts : List (Except JSError Nat))
        (commitFails : Option JSError),
      (executeTransaction acq stmts commitFails).releases =
        match acq with | .ok _ => 1 | .error _ => 0) := by
  refine ⟨?_, ?_, ?_⟩
  · intro pre e post cf
    simp [executeTransaction, runStatements_failure]
  · intro l
    simp [executeTransaction, runStatements_ok]
  · intro acq stmts cf
    cases acq with
    | error e => rfl
    | ok u =>
        cases h : runStatements stmts with
        | error e => simp [executeTransaction, h]
        | ok rs => cases cf <;> simp [executeTransaction, h]

/-- Counterexample to C9: with the debug flag enabled the Standard pool's
connect timeout and the robust pool's connect and query-race bounds
become 20 s, but the legacy `executeQuery` race bound stays at its
hard-coded 10 s. -/
theorem debug_timeout_counterexample :
    standardConnectTimeout true = 20000 ∧ robustConnectTimeout true = 20000 ∧
    robustQueryTimeout true = 20000 ∧
    executeQueryRaceTimeout = 10000 ∧ executeQueryRaceTimeout ≠ 20000 := by
  decide

/-- C9 (amended): the debug-timeout flag extends the Standard pool's
connect timeout and the robust pool's connect and query-race timeouts
from 10 s to 20 s; the legacy `executeQuery` race bound is fixed at 10 s
regardless of the flag. -/
theorem debug_timeout_flag :
    (∀ b, standardConnectTimeout b = if b then 20000 else 10000) ∧
    (∀ b, robustConnectTimeout b = if b then 20000 else 10000) ∧
    (∀ b, robustQueryTimeout b = if b then 20000 else 10000) ∧
    executeQueryRaceTimeout = 10000 :=
  ⟨fun _ => rfl, fun _ => rfl, fun _ => rfl, rfl⟩

/-- C10: `healthCheck` reports healthy exactly when the underlying
`executeQuery` call does not throw — in particular a database timing out
on every query (null sentinel) is still reported healthy with a response
time; healthy is false only when `executeQuery` throws. -/
theorem healthCheck_healthy_iff_no_throw :
    (∀ (i : ExecuteQueryInput) (rt : Nat),
      (healthCheck i rt).healthy = (executeQuery i).outcome.isOk) ∧
    (executeQuery timingOutQueryInput).outcome = .ok none ∧
    (healthCheck timingOutQueryInput 7).healthy = true ∧
    (healthCheck timingOutQueryInput 7).responseTime = some 7 := by
  refine ⟨?_, rfl, rfl, rfl⟩
  intro i rt
  unfold healthCheck
  cases h : (executeQuery i).outcome <;> simp [h, Except.isOk, Except.toBool]

end RobustDB
